import Mathlib

/-
Shallow embedding of the MemeWiki backend (src/main.py, src/schemas.py).

The HTTP handlers are modelled as pure functions over an explicit database
state.  MongoDB documents of the `meme` and `comment` collections are
modelled as Lean structures; the collections themselves as lists.  The
MongoDB operations used by the handlers (`find_one`, `find().sort()`,
`update_one` with `$inc`/`$set`, `$regex`/`$in` filters) are embedded with
their documented semantics.  `database.py` is not part of the sources, so
its two helpers (`create_document`, `get_documents`) are modelled from the
specification and marked as such in their doc comments.

A FastAPI handler either returns a JSON value or raises an HTTPException
carrying a status code and a detail string; an exception that escapes the
handler uncaught is surfaced by the framework as a 500 response.  Both are
modelled by `Except HTTPErr`.
-/

namespace MemeWiki

/-- An HTTP error response: FastAPI `HTTPException(status_code, detail)`,
or the framework's 500 response for an uncaught exception. -/
structure HTTPErr where
  status : Nat
  detail : String
deriving DecidableEq, Repr

/-- Outcome of a handler: a value, or an HTTP error response. -/
abbrev HResult (α : Type) := Except HTTPErr α

/-- Model of `bson.ObjectId`: a 24-character lowercase hex string. -/
structure ObjectId where
  hex : String
deriving DecidableEq, Repr

/-- Whether a character is a hexadecimal digit (either case). -/
def isHexChar (c : Char) : Bool :=
  c.isDigit || (('a' ≤ c) && (c ≤ 'f')) || (('A' ≤ c) && (c ≤ 'F'))

/-- Model of the `ObjectId(s)` constructor on a string argument: it accepts
exactly 24-character hex strings (case-insensitively) and raises
`bson.errors.InvalidId` otherwise, modelled by `none`. -/
def parseObjectId (s : String) : Option ObjectId :=
  if s.length = 24 && s.toList.all isHexChar then
    some ⟨String.mk (s.toList.map Char.toLower)⟩
  else
    none

/-- Detail text of the framework's 500 response when the `InvalidId`
exception raised by `ObjectId(s)` escapes a handler, or is caught and
stringified by a blanket `except` clause. -/
def invalidIdDetail (s : String) : String :=
  s ++ (" is not a valid ObjectId")

/-- A stored document of the `meme` collection. -/
structure MemeDoc where
  oid : ObjectId
  title : String
  image_url : Option String
  caption : Option String
  origin_summary : Option String
  first_seen_at : Option String
  sources : List String
  tags : List String
  submitter : Option String
  upvotes : Int
  downvotes : Int
  /-- Present (`some ()`) once the vote handler has `$set` it to null. -/
  updated_at : Option Unit
deriving DecidableEq, Repr

/-- A stored document of the `comment` collection; `created_at` is an
optional timestamp, modelled as a natural number. -/
structure CommentDoc where
  oid : ObjectId
  meme_id : String
  author : Option String
  text : String
  created_at : Option Nat
deriving DecidableEq, Repr

/-- The configured database: the two persisted collections, plus the
storage engine's id generator modelled as a counter. -/
structure DB where
  meme : List MemeDoc
  comment : List CommentDoc
  nextOid : Nat
deriving DecidableEq, Repr

/-- Mongo `find_one({"_id": oid})` on the meme collection. -/
def findMeme (st : DB) (oid : ObjectId) : Option MemeDoc :=
  st.meme.find? (fun m => m.oid == oid)

/-- Effect of one `$inc` vote update on a matched meme document: the
chosen counter grows by 1 and `updated_at` is `$set` to null. -/
def applyVote (up : Bool) (m : MemeDoc) : MemeDoc :=
  if up then
    { m with upvotes := m.upvotes + 1, updated_at := some () }
  else
    { m with downvotes := m.downvotes + 1, updated_at := some () }

/-- Mongo `update_one({"_id": oid}, {"$inc": ..., "$set": {"updated_at": None}})`
on a list of meme documents: updates the first match only and reports
`matched_count` together with the new collection contents. -/
def updateOneVote (up : Bool) (oid : ObjectId) : List MemeDoc → Nat × List MemeDoc
  | [] => (0, [])
  | m :: ms =>
    if m.oid == oid then
      (1, applyVote up m :: ms)
    else
      let r := updateOneVote up oid ms
      (r.1, m :: r.2)

/-- Handler body of `POST /api/memes/{meme_id}/vote` once the database is
known to be configured (src/main.py, `vote_meme`): reject any direction
other than "up"/"down" with a 400 before touching the database; then parse
the id (an unparseable id raises `InvalidId`, surfaced as a 500); then run
the atomic increment and report 404 when nothing matched. -/
def vote_meme_core (st : DB) (meme_id : String) (direction : String) :
    HResult Unit × DB :=
  if ¬(direction = "up" ∨ direction = "down") then
    (Except.error ⟨400, ("Invalid direction")⟩, st)
  else
    match parseObjectId meme_id with
    | none => (Except.error ⟨500, invalidIdDetail meme_id⟩, st)
    | some oid =>
      let r := updateOneVote (decide (direction = "up")) oid st.meme
      if r.1 = 0 then
        (Except.error ⟨404, ("Meme not found")⟩, { st with meme := r.2 })
      else
        (Except.ok (), { st with meme := r.2 })

/-- Handler of `POST /api/memes/{meme_id}/vote` (src/main.py, `vote_meme`),
including the initial `if db is None` guard. -/
def vote_meme (db : Option DB) (meme_id : String) (direction : String) :
    HResult Unit × Option DB :=
  match db with
  | none => (Except.error ⟨500, ("Database not configured")⟩, none)
  | some st =>
    let r := vote_meme_core st meme_id direction
    (r.1, some r.2)

/-- N successive calls of the vote handler on the same id and direction,
threading the database state. -/
def voteTimes (meme_id : String) (direction : String) (st : DB) : Nat → DB
  | 0 => st
  | n + 1 => voteTimes meme_id direction (vote_meme_core st meme_id direction).2 n

/-- Sort-key comparison used by Mongo `sort("created_at", -1)` in descending
order: `a` may come before `b` iff `a`'s key is not below `b`'s, where a
missing timestamp sorts below every present one. -/
def createdNotBelow (a b : Option Nat) : Bool :=
  match a, b with
  | none, none => true
  | none, some _ => false
  | some _, none => true
  | some x, some y => y ≤ x

/-- Insert one comment into a list already sorted newest-first. -/
def insertDesc (c : CommentDoc) : List CommentDoc → List CommentDoc
  | [] => [c]
  | d :: ds =>
    if createdNotBelow c.created_at d.created_at then
      c :: d :: ds
    else
      d :: insertDesc c ds

/-- Mongo `find(...).sort("created_at", -1)`: the matching comments ordered
newest first by creation timestamp. -/
def sortCommentsDesc : List CommentDoc → List CommentDoc
  | [] => []
  | c :: cs => insertDesc c (sortCommentsDesc cs)

/-- Handler of `GET /api/memes/{meme_id}` (src/main.py, `get_meme`).  After
the `if db is None` guard, the whole body runs inside a `try` block whose
`except Exception as e` clause re-raises every exception as
`HTTPException(500, str(e))`.  In particular the `HTTPException(404, "Meme
not found")` raised for a missing document is itself an `Exception`, so it
is caught and surfaced as a 500 whose detail is its string form
"404: Meme not found"; and the `InvalidId` raised by `ObjectId(meme_id)` on
a malformed id is surfaced as a 500 with the exception text. -/
def get_meme (db : Option DB) (meme_id : String) :
    HResult (MemeDoc × List CommentDoc) :=
  match db with
  | none => Except.error ⟨500, ("Database not configured")⟩
  | some st =>
    match parseObjectId meme_id with
    | none => Except.error ⟨500, invalidIdDetail meme_id⟩
    | some oid =>
      match findMeme st oid with
      | none => Except.error ⟨500, ("404: Meme not found")⟩
      | some doc =>
        let comments :=
          sortCommentsDesc (st.comment.filter (fun c => c.meme_id == meme_id))
        Except.ok (doc, comments)

/-- ASCII lowercasing of one character, as performed by the case-insensitive
(`$options: "i"`) regex matching of the listing filter. -/
def lowerChar (c : Char) : Char :=
  match c with
  | 'A' => 'a' | 'B' => 'b' | 'C' => 'c' | 'D' => 'd' | 'E' => 'e'
  | 'F' => 'f' | 'G' => 'g' | 'H' => 'h' | 'I' => 'i' | 'J' => 'j'
  | 'K' => 'k' | 'L' => 'l' | 'M' => 'm' | 'N' => 'n' | 'O' => 'o'
  | 'P' => 'p' | 'Q' => 'q' | 'R' => 'r' | 'S' => 's' | 'T' => 't'
  | 'U' => 'u' | 'V' => 'v' | 'W' => 'w' | 'X' => 'x' | 'Y' => 'y'
  | 'Z' => 'z'
  | d => d

/-- Case-insensitive character comparison. -/
def charEqCI (a b : Char) : Bool :=
  lowerChar a == lowerChar b

/-- A single-character regex atom: a literal character or the wildcard `.`. -/
inductive RAtom where
  | dot : RAtom
  | lit : Char → RAtom
deriving DecidableEq, Repr

/-- A regex token: an atom, possibly under one of the postfix quantifiers
`*`, `+`, `?`. -/
inductive RTok where
  | once : RAtom → RTok
  | star : RAtom → RTok
  | plus : RAtom → RTok
  | opt : RAtom → RTok
deriving DecidableEq, Repr

/-- Reading of a PCRE pattern string as used by the `$regex` operator,
restricted to the constructs relevant here: literal characters, the
wildcard `.`, and the postfix quantifiers `*`, `+`, `?` on a
single-character atom. -/
def mkAtom (c : Char) : RAtom :=
  if c == '.' then RAtom.dot else RAtom.lit c

/-- Token reading of the pattern characters. -/
def lexPattern (p : List Char) : List RTok :=
  match p with
  | [] => []
  | [c] => [RTok.once (mkAtom c)]
  | c :: q :: r2 =>
    let a := mkAtom c
    if q == '*' then RTok.star a :: lexPattern r2
    else if q == '+' then RTok.plus a :: lexPattern r2
    else if q == '?' then RTok.opt a :: lexPattern r2
    else RTok.once a :: lexPattern (q :: r2)

/-- Whether an atom matches a character, case-insensitively (the code
always passes `$options: "i"`). -/
def matchAtom (a : RAtom) (c : Char) : Bool :=
  match a with
  | RAtom.dot => true
  | RAtom.lit x => charEqCI x c

/-- Whether a token list can match the empty subject: every remaining
token must be under a `*` or `?` quantifier. -/
def nullable : List RTok → Bool
  | [] => true
  | RTok.once _ :: _ => false
  | RTok.plus _ :: _ => false
  | RTok.opt _ :: p => nullable p
  | RTok.star _ :: p => nullable p

/-- One matching step at a non-empty subject position: `mA` tells whether
an atom matches the current character, `next` continues the match on the
rest of the subject.  The token list is consumed structurally; a `+` token
is expanded into one mandatory atom followed by a `*` token. -/
def matchHere (mA : RAtom → Bool) (next : List RTok → Bool) : List RTok → Bool
  | [] => true
  | RTok.once a :: p => mA a && next p
  | RTok.opt a :: p => matchHere mA next p || (mA a && next p)
  | RTok.plus a :: p => mA a && next (RTok.star a :: p)
  | RTok.star a :: p => matchHere mA next p || (mA a && next (RTok.star a :: p))

/-- Whether a token list matches some leading segment of the subject. -/
def matchOn : List Char → List RTok → Bool
  | [], p => nullable p
  | c :: cs, p => matchHere (fun a => matchAtom a c) (matchOn cs) p

/-- Unanchored regex search: the token list may match starting at any
position of the subject, as Mongo's `$regex` does. -/
def searchFrom (toks : List RTok) : List Char → Bool
  | [] => matchOn [] toks
  | c :: cs => matchOn (c :: cs) toks || searchFrom toks cs

/-- Model of the filter `{field: {"$regex": pat, "$options": "i"}}` applied
to a string value. -/
def regexSearchCI (pat subj : String) : Bool :=
  searchFrom (lexPattern pat.toList) subj.toList

/-- The regex filter applied to an optional field: a missing (null) field
never matches a `$regex` condition. -/
def optRegexCI (pat : String) : Option String → Bool
  | none => false
  | some s => regexSearchCI pat s

/-- The `$or` clause built by `list_memes` when `q` is truthy: a regex
match on `title`, `caption` or `origin_summary`. -/
def memeMatchesQ (q : String) (m : MemeDoc) : Bool :=
  regexSearchCI q m.title || optRegexCI q m.caption || optRegexCI q m.origin_summary

/-- The complete filter dictionary built by `list_memes`: the `$or` regex
clause is added only when `q` is truthy (present and non-empty), the
`tags` `$in` clause only when `tag` is truthy; both conditions conjoin. -/
def memeFilter (q tag : Option String) (m : MemeDoc) : Bool :=
  (match q with
   | some s => if s == "" then true else memeMatchesQ s m
   | none => true)
  &&
  (match tag with
   | some t => if t == "" then true else m.tags.contains t
   | none => true)

/-- Modelled from the spec: the helper `get_documents(collection, filter,
limit)` lives in `database.py`, which is not among the sources.  Per the
specification it returns the documents of the collection matching the
filter, capped at `limit`, in no specified order (modelled as stored
order). -/
def get_documents (docs : List MemeDoc) (pred : MemeDoc → Bool) (limit : Nat) :
    List MemeDoc :=
  (docs.filter pred).take limit

/-- Handler of `GET /api/memes` (src/main.py, `list_memes`).  The handler
has no explicit `db is None` guard, but with no database configured the
helper raises and the `except` clause surfaces a 500. -/
def list_memes (db : Option DB) (q tag : Option String) (limit : Nat) :
    HResult (List MemeDoc) :=
  match db with
  | none => Except.error ⟨500, ("Database not configured")⟩
  | some st => Except.ok (get_documents st.meme (memeFilter q tag) limit)

/-- Spec-side predicate, written from the spec's words for comparison with
the implementation: `needle` begins `hay`, comparing characters
case-insensitively. -/
def specLeadsCI : List Char → List Char → Bool
  | [], _ => true
  | _ :: _, [] => false
  | n :: ns, h :: hs => charEqCI n h && specLeadsCI ns hs

/-- Spec-side predicate: `needle` occurs as a contiguous segment of `hay`,
case-insensitively. -/
def specSubCI (needle : List Char) : List Char → Bool
  | [] => specLeadsCI needle []
  | c :: cs => specLeadsCI needle (c :: cs) || specSubCI needle cs

/-- Spec-side predicate: string containment as the spec phrases it, "contains
`q` as a case-insensitive substring". -/
def specContainsCI (q s : String) : Bool :=
  specSubCI q.toList s.toList

/-- Spec-side predicate: the spec's description of the `q` filter — some of
`title`, `caption`, `origin_summary` contains `q` as a case-insensitive
substring. -/
def specQMatch (q : String) (m : MemeDoc) : Bool :=
  specContainsCI q m.title ||
    (match m.caption with | some s => specContainsCI q s | none => false) ||
    (match m.origin_summary with | some s => specContainsCI q s | none => false)

/-- Characters with a special meaning in a PCRE pattern; for a pattern free
of these, a regex match is literal. -/
def isRegexMeta (c : Char) : Bool :=
  c == '.' || c == '*' || c == '+' || c == '?' || c == '(' || c == ')' ||
  c == '[' || c == ']' || c == '^' || c == '$' || c == '|' || c == '\\' ||
  c == Char.ofNat 123 || c == Char.ofNat 125

/-- A validated Comment payload (src/schemas.py, class `Comment`):
`meme_id` and `text` are required, `author` and `created_at` optional. -/
structure CommentIn where
  meme_id : String
  author : Option String
  text : String
  created_at : Option Nat
deriving DecidableEq, Repr

/-- Hex rendering of the id generator's counter as a 24-character id. -/
def natToOid (n : Nat) : ObjectId :=
  let ds := Nat.toDigits 16 n
  ⟨String.mk (List.replicate (24 - ds.length) '0' ++ ds)⟩

/-- Modelled from the spec: the helper `create_document(collection, data)`
lives in `database.py`, which is not among the sources.  Per the
specification it inserts one document into the collection, with a unique
identifier assigned at insertion, and returns the new external identifier
as a string.  This is its instance for the `comment` collection. -/
def create_document_comment (st : DB) (data : CommentIn) : String × DB :=
  let oid := natToOid st.nextOid
  let doc : CommentDoc :=
    { oid := oid, meme_id := data.meme_id, author := data.author,
      text := data.text, created_at := data.created_at }
  (oid.hex, { st with comment := st.comment ++ [doc], nextOid := st.nextOid + 1 })

/-- Handler of `POST /api/memes/{meme_id}/comments` (src/main.py,
`add_comment`): after the `db is None` guard, look the meme up (a malformed
id raises `InvalidId`, surfaced uncaught as a 500), fail 404 when absent;
otherwise overwrite the body's `meme_id` with the path value and insert. -/
def add_comment (db : Option DB) (meme_id : String) (c : CommentIn) :
    HResult String × Option DB :=
  match db with
  | none => (Except.error ⟨500, ("Database not configured")⟩, none)
  | some st =>
    match parseObjectId meme_id with
    | none => (Except.error ⟨500, invalidIdDetail meme_id⟩, some st)
    | some oid =>
      match findMeme st oid with
      | none => (Except.error ⟨404, ("Meme not found")⟩, some st)
      | some _ =>
        let data := { c with meme_id := meme_id }
        let r := create_document_comment st data
        (Except.ok r.1, some r.2)

/-- Model of pydantic's `HttpUrl` validation: an http or https URL with a
non-empty remainder after the scheme. -/
def isHttpUrl (s : String) : Bool :=
  (s.startsWith ("http://") && decide (s.length > 7)) ||
    (s.startsWith ("https://") && decide (s.length > 8))

/-- A validated Meme payload (src/schemas.py, class `Meme`). -/
structure Meme where
  title : String
  image_url : Option String
  caption : Option String
  origin_summary : Option String
  first_seen_at : Option String
  sources : List String
  tags : List String
  submitter : Option String
  upvotes : Int
  downvotes : Int
deriving DecidableEq, Repr

/-- An incoming Meme payload before validation; `none` marks an absent
field. -/
structure RawMeme where
  title : Option String
  image_url : Option String
  caption : Option String
  origin_summary : Option String
  first_seen_at : Option String
  sources : Option (List String)
  tags : Option (List String)
  submitter : Option String
  upvotes : Option Int
  downvotes : Option Int
deriving DecidableEq, Repr

/-- Pydantic validation of a Meme payload (src/schemas.py, class `Meme`):
`title` is required; `upvotes` and `downvotes` carry a `ge=0` constraint
and default to 0; `image_url` and every element of `sources` must be valid
URLs; `sources` and `tags` default to empty lists; the remaining fields
default to null.  `none` models a validation error. -/
def validateMeme (r : RawMeme) : Option Meme :=
  match r.title with
  | none => none
  | some t =>
    if (r.upvotes.getD 0) < 0 then none
    else if (r.downvotes.getD 0) < 0 then none
    else if !(match r.image_url with | none => true | some u => isHttpUrl u) then none
    else if !((r.sources.getD []).all isHttpUrl) then none
    else
      some { title := t, image_url := r.image_url, caption := r.caption,
             origin_summary := r.origin_summary, first_seen_at := r.first_seen_at,
             sources := r.sources.getD [], tags := r.tags.getD [],
             submitter := r.submitter, upvotes := r.upvotes.getD 0,
             downvotes := r.downvotes.getD 0 }

/-- A JSON-level value as handled by the conversion helper: the internal
identifier type, or an ordinary JSON value. -/
inductive JVal where
  | oid : ObjectId → JVal
  | str : String → JVal
  | int : Int → JVal
  | null : JVal
deriving DecidableEq, Repr

/-- A document as a key-ordered dictionary. -/
abbrev JDoc := List (String × JVal)

/-- Dictionary key lookup. -/
def lookupKey (k : String) : JDoc → Option JVal
  | [] => none
  | (k2, v) :: rest => if k2 == k then some v else lookupKey k rest

/-- Dictionary `pop`: the document without the given key. -/
def removeKey (k : String) : JDoc → JDoc
  | [] => []
  | (k2, v) :: rest =>
    if k2 == k then removeKey k rest else (k2, v) :: removeKey k rest

/-- Dictionary assignment: replaces the value in place when the key exists,
appends the pair otherwise. -/
def setKey (k : String) (v : JVal) : JDoc → JDoc
  | [] => [(k, v)]
  | (k2, w) :: rest =>
    if k2 == k then (k, v) :: rest else (k2, w) :: setKey k v rest

/-- The JSON conversion helper (src/main.py, `to_json`): a falsy (empty)
document is returned unchanged; a document whose `_id` value is an
`ObjectId` has that entry popped and its string form stored under `id`;
any other document is returned as is. -/
def to_json (doc : JDoc) : JDoc :=
  match doc with
  | [] => doc
  | _ =>
    match lookupKey ("_id") doc with
    | some (JVal.oid o) => setKey ("id") (JVal.str o.hex) (removeKey ("_id") doc)
    | _ => doc

/-! Concrete fixtures used by witness and counterexample theorems. -/

/-- A well-formed identifier used by the witnesses. -/
def wOid : ObjectId := ⟨"aaaaaaaaaaaaaaaaaaaaaaaa"⟩

/-- Its string form as sent over the API. -/
def wHex : String := "aaaaaaaaaaaaaaaaaaaaaaaa"

/-- A stored meme used by the witnesses. -/
def wMeme : MemeDoc :=
  { oid := wOid, title := "Doge", image_url := none, caption := some "much wow",
    origin_summary := none, first_seen_at := none, sources := [],
    tags := ["funny"], submitter := none, upvotes := 0, downvotes := 0,
    updated_at := none }

/-- A one-meme database used by the witnesses. -/
def wDB : DB := { meme := [wMeme], comment := [], nextOid := 0 }

/-- A database with an empty meme collection. -/
def emptyDB : DB := { meme := [], comment := [], nextOid := 0 }

/-! Helper lemmas about the vote update. -/

lemma applyVote_oid (up : Bool) (m : MemeDoc) : (applyVote up m).oid = m.oid := by
  unfold applyVote
  split <;> rfl

lemma updateOneVote_matched (up : Bool) (oid : ObjectId) :
    ∀ (l : List MemeDoc) (m : MemeDoc),
      l.find? (fun d => d.oid == oid) = some m →
      (updateOneVote up oid l).1 = 1 ∧
        (updateOneVote up oid l).2.find? (fun d => d.oid == oid) =
          some (applyVote up m) := by
  intro l
  induction l with
  | nil => intro m h; simp [List.find?] at h
  | cons d ds ih =>
    intro m h
    by_cases hd : (d.oid == oid) = true
    · simp only [List.find?, hd] at h
      cases h
      have hoid : ((applyVote up d).oid == oid) = true := by
        rw [applyVote_oid]; exact hd
      refine ⟨by simp [updateOneVote, hd], ?_⟩
      simp [updateOneVote, hd, List.find?, hoid]
    · rw [Bool.not_eq_true] at hd
      simp only [List.find?, hd] at h
      have hds := ih m h
      refine ⟨?_, ?_⟩
      · simp [updateOneVote, hd, hds.1]
      · simp [updateOneVote, hd, List.find?, hds.2]

lemma updateOneVote_unmatched (up : Bool) (oid : ObjectId) :
    ∀ l : List MemeDoc,
      l.find? (fun d => d.oid == oid) = none →
      updateOneVote up oid l = (0, l) := by
  intro l
  induction l with
  | nil => intro _; rfl
  | cons d ds ih =>
    intro h
    by_cases hd : (d.oid == oid) = true
    · simp only [List.find?, hd] at h
      exact absurd h (by simp)
    · rw [Bool.not_eq_true] at hd
      simp only [List.find?, hd] at h
      simp [updateOneVote, hd, ih h]

lemma vote_meme_core_found (st : DB) (s dir : String) (oid : ObjectId) (m : MemeDoc)
    (hdir : dir = "up" ∨ dir = "down") (hparse : parseObjectId s = some oid)
    (hfind : findMeme st oid = some m) :
    (vote_meme_core st s dir).1 = Except.ok () ∧
      findMeme (vote_meme_core st s dir).2 oid =
        some (applyVote (decide (dir = "up")) m) ∧
      (vote_meme_core st s dir).2.comment = st.comment := by
  have hfind' : st.meme.find? (fun d => d.oid == oid) = some m := hfind
  have hmatched := updateOneVote_matched (decide (dir = "up")) oid st.meme m hfind'
  unfold vote_meme_core
  rw [if_neg (not_not_intro hdir), hparse]
  simp [findMeme, hmatched.1, hmatched.2]

lemma voteTimes_found (s : String) (oid : ObjectId) (dir : String)
    (hdir : dir = "up" ∨ dir = "down") (hparse : parseObjectId s = some oid) :
    ∀ (n : Nat) (st : DB) (m : MemeDoc), findMeme st oid = some m →
      ∃ m', findMeme (voteTimes s dir st n) oid = some m' ∧
        m'.upvotes = m.upvotes + (if dir = "up" then (n : Int) else 0) ∧
        m'.downvotes = m.downvotes + (if dir = "up" then 0 else (n : Int)) := by
  intro n
  induction n with
  | zero =>
    intro st m hfind
    exact ⟨m, hfind, by split <;> simp, by split <;> simp⟩
  | succ k ih =>
    intro st m hfind
    have hstep := vote_meme_core_found st s dir oid m hdir hparse hfind
    have hnext := ih (vote_meme_core st s dir).2 _ hstep.2.1
    obtain ⟨m', hm', hu, hd⟩ := hnext
    refine ⟨m', by simpa [voteTimes] using hm', ?_, ?_⟩
    · by_cases hdu : dir = "up" <;>
        simp [applyVote, hdu] at hu ⊢ <;> omega
    · by_cases hdu : dir = "up" <;>
        simp [applyVote, hdu] at hd ⊢ <;> omega

/-- C2: for every existing Meme and every N ≥ 1, voting "up" N times
increases its `upvotes` by exactly N and leaves `downvotes` unchanged, and
symmetrically for "down"; the counters only ever increase and, starting
non-negative, never go negative. -/
theorem vote_n_times_increments (st : DB) (m : MemeDoc) (s : String) (n : Nat)
    (hparse : parseObjectId s = some m.oid)
    (hfind : findMeme st m.oid = some m)
    (hn : 1 ≤ n) (hu0 : 0 ≤ m.upvotes) (hd0 : 0 ≤ m.downvotes) :
    (∃ m', findMeme (voteTimes s ("up") st n) m.oid = some m' ∧
      m'.upvotes = m.upvotes + n ∧ m'.downvotes = m.downvotes ∧
      m.upvotes ≤ m'.upvotes ∧ 0 ≤ m'.upvotes ∧ 0 ≤ m'.downvotes) ∧
    (∃ m', findMeme (voteTimes s ("down") st n) m.oid = some m' ∧
      m'.downvotes = m.downvotes + n ∧ m'.upvotes = m.upvotes ∧
      m.downvotes ≤ m'.downvotes ∧ 0 ≤ m'.upvotes ∧ 0 ≤ m'.downvotes) := by
  constructor
  · obtain ⟨m', hm', hu, hd⟩ :=
      voteTimes_found s m.oid ("up") (Or.inl rfl) hparse n st m hfind
    simp at hu hd
    exact ⟨m', hm', by omega, by omega, by omega, by omega, by omega⟩
  · obtain ⟨m', hm', hu, hd⟩ :=
      voteTimes_found s m.oid ("down") (Or.inr rfl) hparse n st m hfind
    simp at hu hd
    exact ⟨m', hm', by omega, by omega, by omega, by omega, by omega⟩

/-- A well-formed identifier absent from the witness database. -/
def fOid : ObjectId := ⟨"ffffffffffffffffffffffff"⟩

/-- Its string form. -/
def fHex : String := "ffffffffffffffffffffffff"

/-- Witness for C2: the concrete one-meme database, id string and N = 2. -/
theorem vote_n_times_increments_witness :
    parseObjectId wHex = some wMeme.oid ∧ findMeme wDB wMeme.oid = some wMeme ∧
    (1 ≤ 2 ∧ (0 : Int) ≤ wMeme.upvotes ∧ (0 : Int) ≤ wMeme.downvotes) ∧
    ((∃ m', findMeme (voteTimes wHex ("up") wDB 2) wMeme.oid = some m' ∧
        m'.upvotes = wMeme.upvotes + ((2 : Nat) : Int) ∧ m'.downvotes = wMeme.downvotes ∧
        wMeme.upvotes ≤ m'.upvotes ∧ 0 ≤ m'.upvotes ∧ 0 ≤ m'.downvotes) ∧
     (∃ m', findMeme (voteTimes wHex ("down") wDB 2) wMeme.oid = some m' ∧
        m'.downvotes = wMeme.downvotes + ((2 : Nat) : Int) ∧ m'.upvotes = wMeme.upvotes ∧
        wMeme.downvotes ≤ m'.downvotes ∧ 0 ≤ m'.upvotes ∧ 0 ≤ m'.downvotes)) :=
  ⟨by decide, by decide, ⟨by decide, by decide, by decide⟩,
   vote_n_times_increments wDB wMeme wHex 2 (by decide) (by decide) (by decide)
     (by decide) (by decide)⟩

/-- C3: a vote whose direction is neither "up" nor "down" fails with the
400 bad-request error and leaves the database unchanged. -/
theorem vote_invalid_direction_bad_request (st : DB) (mid dir : String)
    (h1 : dir ≠ "up") (h2 : dir ≠ "down") :
    vote_meme (some st) mid dir =
      (Except.error ⟨400, ("Invalid direction")⟩, some st) := by
  have h : ¬(dir = "up" ∨ dir = "down") := by
    rintro (hc | hc)
    · exact h1 hc
    · exact h2 hc
  simp [vote_meme, vote_meme_core, h]

/-- Witness for C3: direction "left" on the concrete database. -/
theorem vote_invalid_direction_bad_request_witness :
    ("left" : String) ≠ "up" ∧ ("left" : String) ≠ "down" ∧
    vote_meme (some wDB) wHex ("left") =
      (Except.error ⟨400, ("Invalid direction")⟩, some wDB) :=
  ⟨by decide, by decide,
   vote_invalid_direction_bad_request wDB wHex ("left") (by decide) (by decide)⟩

/-- C4 counterexample: voting "up" on the id string "zzz" — an id that
matches no stored Meme — is not reported as a 404; the `InvalidId` raised
by `ObjectId("zzz")` escapes the handler and surfaces as a 500. -/
theorem vote_unparseable_id_not_404 :
    vote_meme (some wDB) ("zzz") ("up") =
      (Except.error ⟨500, invalidIdDetail ("zzz")⟩, some wDB) := rfl

/-- C4 (amended): a vote with a valid direction on an id that parses but
matches no stored Meme fails with the 404 not-found error and mutates
nothing; an unparseable id instead fails with a 500, also mutating
nothing. -/
theorem vote_absent_id_not_found (st : DB) (mid dir : String)
    (hdir : dir = "up" ∨ dir = "down") :
    (∀ oid, parseObjectId mid = some oid →
       findMeme st oid = none →
       vote_meme (some st) mid dir =
         (Except.error ⟨404, ("Meme not found")⟩, some st)) ∧
    (parseObjectId mid = none →
       vote_meme (some st) mid dir =
         (Except.error ⟨500, invalidIdDetail mid⟩, some st)) := by
  constructor
  · intro oid hparse habs
    have hnone : st.meme.find? (fun d => d.oid == oid) = none := habs
    have hupd := updateOneVote_unmatched (decide (dir = "up")) oid st.meme hnone
    simp [vote_meme, vote_meme_core, hparse, hupd, not_not_intro hdir]
  · intro hparse
    simp [vote_meme, vote_meme_core, hparse, not_not_intro hdir]

/-- Witness for C4 (amended): a parseable id absent from the concrete
database. -/
theorem vote_absent_id_not_found_witness :
    (("up" : String) = "up" ∨ ("up" : String) = "down") ∧
    parseObjectId fHex = some fOid ∧ findMeme wDB fOid = none ∧
    vote_meme (some wDB) fHex ("up") =
      (Except.error ⟨404, ("Meme not found")⟩, some wDB) :=
  ⟨Or.inl rfl, by decide, by decide,
   (vote_absent_id_not_found wDB fHex ("up") (Or.inl rfl)).1 fOid (by decide)
     (by decide)⟩

/-- C10: the direction validity check runs before any id parsing or
database access, so for every id — including a malformed one — an invalid
direction yields the 400 error, the state is unchanged, and the outcome is
independent of the database contents. -/
theorem vote_direction_checked_before_lookup (st : DB) (mid dir : String)
    (h : ¬(dir = "up" ∨ dir = "down")) :
    vote_meme (some st) mid dir =
        (Except.error ⟨400, ("Invalid direction")⟩, some st) ∧
      ∀ st2 : DB, (vote_meme (some st2) mid dir).1 = (vote_meme (some st) mid dir).1 := by
  have hmain : ∀ s : DB, vote_meme (some s) mid dir =
      (Except.error ⟨400, ("Invalid direction")⟩, some s) := by
    intro s
    simp [vote_meme, vote_meme_core, h]
  exact ⟨hmain st, fun st2 => by rw [hmain st2, hmain st]⟩

/-- Witness for C10: direction "sideways" with the malformed id "zzz", on
two different databases. -/
theorem vote_direction_checked_before_lookup_witness :
    ¬(("sideways" : String) = "up" ∨ ("sideways" : String) = "down") ∧
    vote_meme (some wDB) ("zzz") ("sideways") =
      (Except.error ⟨400, ("Invalid direction")⟩, some wDB) ∧
    (vote_meme (some emptyDB) ("zzz") ("sideways")).1 =
      (vote_meme (some wDB) ("zzz") ("sideways")).1 :=
  ⟨by decide,
   (vote_direction_checked_before_lookup wDB ("zzz") ("sideways") (by decide)).1,
   (vote_direction_checked_before_lookup wDB ("zzz") ("sideways") (by decide)).2 emptyDB⟩

/-- C1: behavior of single-meme retrieval with a configured database, on a
well-formed id matching no stored Meme and on a malformed id.  In the code
both cases surface as 500, not 404: the `HTTPException(404, "Meme not
found")` raised inside the `try` block is caught by the blanket `except
Exception` clause and re-raised as a 500, and the `InvalidId` raised by
`ObjectId` is likewise caught and surfaced as a 500 with different detail
text. -/
theorem get_meme_notfound_surfaces_500 :
    get_meme (some emptyDB) ("ffffffffffffffffffffffff") =
      Except.error ⟨500, ("404: Meme not found")⟩ ∧
    get_meme (some emptyDB) ("zzz") =
      Except.error ⟨500, invalidIdDetail ("zzz")⟩ :=
  ⟨rfl, rfl⟩

/-- C6: retrieving an existing meme returns the meme document together with
all comments referencing it, newest first: for matching comments stored in
insertion order with creation times t1 < t2 < t3, the returned order is
[t3, t2, t1]. -/
theorem get_meme_comments_newest_first (st : DB) (mid : String) (oid : ObjectId)
    (m : MemeDoc) (c1 c2 c3 : CommentDoc) (t1 t2 t3 : Nat)
    (hparse : parseObjectId mid = some oid)
    (hfind : findMeme st oid = some m)
    (hcs : st.comment.filter (fun c => c.meme_id == mid) = [c1, c2, c3])
    (ht1 : c1.created_at = some t1) (ht2 : c2.created_at = some t2)
    (ht3 : c3.created_at = some t3)
    (h12 : t1 < t2) (h23 : t2 < t3) :
    get_meme (some st) mid = Except.ok (m, [c3, c2, c1]) := by
  have h32 : ¬(t3 ≤ t2) := by omega
  have h31 : ¬(t3 ≤ t1) := by omega
  have h21 : ¬(t2 ≤ t1) := by omega
  simp only [get_meme, hparse, hfind, hcs]
  simp [sortCommentsDesc, insertDesc, createdNotBelow, ht1, ht2, ht3, h32, h31, h21]

/-- Comments used by the C6 witness. -/
def wCom1 : CommentDoc :=
  { oid := natToOid 1, meme_id := wHex, author := none, text := "first",
    created_at := some 1 }

/-- Second witness comment. -/
def wCom2 : CommentDoc :=
  { oid := natToOid 2, meme_id := wHex, author := none, text := "second",
    created_at := some 2 }

/-- Third witness comment. -/
def wCom3 : CommentDoc :=
  { oid := natToOid 3, meme_id := wHex, author := none, text := "third",
    created_at := some 3 }

/-- Database with the three witness comments in insertion order. -/
def wDBc : DB := { meme := [wMeme], comment := [wCom1, wCom2, wCom3], nextOid := 4 }

/-- Witness for C6 on the concrete three-comment database. -/
theorem get_meme_comments_newest_first_witness :
    parseObjectId wHex = some wMeme.oid ∧ findMeme wDBc wMeme.oid = some wMeme ∧
    wDBc.comment.filter (fun c => c.meme_id == wHex) = [wCom1, wCom2, wCom3] ∧
    (wCom1.created_at = some 1 ∧ wCom2.created_at = some 2 ∧
      wCom3.created_at = some 3) ∧
    ((1 : Nat) < 2 ∧ (2 : Nat) < 3) ∧
    get_meme (some wDBc) wHex = Except.ok (wMeme, [wCom3, wCom2, wCom1]) :=
  ⟨by decide, by decide, by decide, ⟨rfl, rfl, rfl⟩, ⟨by decide, by decide⟩,
   get_meme_comments_newest_first wDBc wHex wMeme.oid wMeme wCom1 wCom2 wCom3
     1 2 3 (by decide) (by decide) (by decide) rfl rfl rfl (by decide) (by decide)⟩

/-! Helper lemmas about the dictionary operations of `to_json`. -/

lemma lookupKey_removeKey_self (k : String) :
    ∀ d : JDoc, lookupKey k (removeKey k d) = none := by
  intro d
  induction d with
  | nil => rfl
  | cons p rest ih =>
    obtain ⟨k2, v⟩ := p
    by_cases hk : (k2 == k) = true
    · simp [removeKey, hk, ih]
    · rw [Bool.not_eq_true] at hk
      simp [removeKey, lookupKey, hk, ih]

lemma lookupKey_setKey_self (k : String) (v : JVal) :
    ∀ d : JDoc, lookupKey k (setKey k v d) = some v := by
  intro d
  induction d with
  | nil => simp [setKey, lookupKey]
  | cons p rest ih =>
    obtain ⟨k2, w⟩ := p
    by_cases hk : (k2 == k) = true
    · simp [setKey, lookupKey, hk]
    · rw [Bool.not_eq_true] at hk
      simp [setKey, lookupKey, hk, ih]

lemma lookupKey_setKey_ne (k1 k2 : String) (v : JVal) (hne : k1 ≠ k2) :
    ∀ d : JDoc, lookupKey k1 (setKey k2 v d) = lookupKey k1 d := by
  intro d
  have hne2 : (k2 == k1) = false := by
    simp [Ne.symm hne]
  induction d with
  | nil => simp [setKey, lookupKey, hne2]
  | cons p rest ih =>
    obtain ⟨k3, w⟩ := p
    by_cases hk : (k3 == k2) = true
    · have hk3 : k3 = k2 := eq_of_beq hk
      simp [setKey, lookupKey, hk, hk3, hne2]
    · rw [Bool.not_eq_true] at hk
      simp [setKey, lookupKey, hk, ih]

/-- C9: a document carrying the internal `_id` identifier field is
converted so that the identifier's string form is exposed under the key
`id` and the `_id` entry itself is gone from the output. -/
theorem to_json_renames_internal_id (doc : JDoc) (o : ObjectId)
    (hid : lookupKey ("_id") doc = some (JVal.oid o)) :
    lookupKey ("id") (to_json doc) = some (JVal.str o.hex) ∧
    lookupKey ("_id") (to_json doc) = none := by
  cases doc with
  | nil => simp [lookupKey] at hid
  | cons p rest =>
    have hconv : to_json (p :: rest) =
        setKey ("id") (JVal.str o.hex) (removeKey ("_id") (p :: rest)) := by
      simp [to_json, hid]
    rw [hconv]
    refine ⟨lookupKey_setKey_self _ _ _, ?_⟩
    rw [lookupKey_setKey_ne _ _ _ (by decide)]
    exact lookupKey_removeKey_self _ _

/-- Document used by the C9 witness. -/
def wJDoc : JDoc := [("_id", JVal.oid wOid), ("title", JVal.str "Doge")]

/-- Witness for C9 on a concrete two-field document. -/
theorem to_json_renames_internal_id_witness :
    lookupKey ("_id") wJDoc = some (JVal.oid wOid) ∧
    (lookupKey ("id") (to_json wJDoc) = some (JVal.str wOid.hex) ∧
      lookupKey ("_id") (to_json wJDoc) = none) :=
  ⟨rfl, to_json_renames_internal_id wJDoc wOid rfl⟩

/-- The Meme payload holding only a title. -/
def rawTitleOnly (t : String) : RawMeme :=
  { title := some t, image_url := none, caption := none, origin_summary := none,
    first_seen_at := none, sources := none, tags := none, submitter := none,
    upvotes := none, downvotes := none }

/-- C8: Meme payload validation rejects a payload missing `title`, or with
a negative `upvotes` or `downvotes`, or with an invalid URL in `image_url`
or among `sources`; a payload with only `title` is accepted, with the vote
counters defaulting to 0, `tags` and `sources` to empty lists, and the
remaining optional fields to null. -/
theorem meme_validation_rules :
    (∀ r : RawMeme, r.title = none → validateMeme r = none) ∧
    (∀ (r : RawMeme) (u : Int), r.upvotes = some u → u < 0 →
       validateMeme r = none) ∧
    (∀ (r : RawMeme) (d : Int), r.downvotes = some d → d < 0 →
       validateMeme r = none) ∧
    (∀ (r : RawMeme) (u : String), r.image_url = some u → isHttpUrl u = false →
       validateMeme r = none) ∧
    (∀ (r : RawMeme) (l : List String) (u : String), r.sources = some l →
       u ∈ l → isHttpUrl u = false → validateMeme r = none) ∧
    (∀ t : String, validateMeme (rawTitleOnly t) =
       some { title := t, image_url := none, caption := none,
              origin_summary := none, first_seen_at := none, sources := [],
              tags := [], submitter := none, upvotes := 0, downvotes := 0 }) := by
  refine ⟨?_, ?_, ?_, ?_, ?_, ?_⟩
  · intro r h
    simp [validateMeme, h]
  · intro r u h hu
    cases ht : r.title <;> simp [validateMeme, ht, h, hu]
  · intro r d h hd
    cases ht : r.title <;> simp [validateMeme, ht, h, hd]
  · intro r u h hu
    cases ht : r.title <;> simp [validateMeme, ht, h, hu]
  · intro r l u h hm hu
    have hall : l.all isHttpUrl = false := by
      cases hba : l.all isHttpUrl
      · rfl
      · have := (List.all_eq_true.mp hba) u hm
        rw [hu] at this
        exact absurd this (by simp)
    cases ht : r.title <;> simp [validateMeme, ht, h, hall]
  · intro t
    rfl

/-- The payload with no fields at all. -/
def rawNoTitle : RawMeme :=
  { title := none, image_url := none, caption := none, origin_summary := none,
    first_seen_at := none, sources := none, tags := none, submitter := none,
    upvotes := none, downvotes := none }

/-- The payload with a negative upvote count. -/
def rawNegUp : RawMeme :=
  { title := some "x", image_url := none, caption := none, origin_summary := none,
    first_seen_at := none, sources := none, tags := none, submitter := none,
    upvotes := some (-1), downvotes := none }

/-- Witness for C8: concrete rejected and accepted payloads. -/
theorem meme_validation_rules_witness :
    rawNoTitle.title = none ∧ validateMeme rawNoTitle = none ∧
    rawNegUp.upvotes = some (-1) ∧ ((-1 : Int) < 0) ∧
    validateMeme rawNegUp = none ∧
    validateMeme (rawTitleOnly ("Doge")) =
      some { title := "Doge", image_url := none, caption := none,
             origin_summary := none, first_seen_at := none, sources := [],
             tags := [], submitter := none, upvotes := 0, downvotes := 0 } :=
  ⟨rfl, meme_validation_rules.1 rawNoTitle rfl, rfl, by decide,
   meme_validation_rules.2.1 rawNegUp (-1) rfl (by decide),
   meme_validation_rules.2.2.2.2.2 ("Doge")⟩

/-- A meme whose title the pattern "a." matches without being contained in
it as a substring. -/
def qMeme : MemeDoc :=
  { oid := wOid, title := "ab", image_url := none, caption := none,
    origin_summary := none, first_seen_at := none, sources := [], tags := [],
    submitter := none, upvotes := 0, downvotes := 0, updated_at := none }

/-- One-meme database for the C5 counterexample. -/
def qDB : DB := { meme := [qMeme], comment := [], nextOid := 0 }

/-- C5 counterexample, refuting two parts of the claim at concrete inputs.
First, with `q` = "a." the listing matches the meme titled "ab" — the
filter is a regex pattern match, in which `.` is a wildcard — although no
field of that meme contains "a." as a substring, so the claim's
case-insensitive-substring characterization of a present `q` fails.
Second, with `tag` = "" — present, but falsy in the handler's `if tag:`
test — the listing returns the meme whose tags list is empty, although
that list does not contain "" as an element, so the claim's exact-element
characterization of a present `tag` fails for the empty tag string. -/
theorem list_memes_filter_counterexample :
    (list_memes (some qDB) (some ("a.")) none 50 = Except.ok [qMeme] ∧
      specQMatch ("a.") qMeme = false) ∧
    (list_memes (some qDB) none (some ("")) 50 = Except.ok [qMeme] ∧
      qMeme.tags.contains ("") = false) :=
  ⟨⟨rfl, by decide⟩, ⟨rfl, by decide⟩⟩

/-! The regex filter coincides with case-insensitive substring containment
on patterns free of regex metacharacters. -/

lemma lexPattern_literal : ∀ p : List Char,
    (p.all fun c => !(isRegexMeta c)) = true →
    lexPattern p = p.map (fun c => RTok.once (RAtom.lit c)) := by
  intro p
  induction p with
  | nil => intro _; rfl
  | cons c rest ih =>
    intro h
    rw [List.all_cons, Bool.and_eq_true] at h
    have hcd : (c == '.') = false := by
      cases hb : (c == '.') with
      | false => rfl
      | true => simp [isRegexMeta, hb] at h
    cases rest with
    | nil => simp [lexPattern, mkAtom, hcd]
    | cons q r2 =>
      have hqm := h.2
      rw [List.all_cons, Bool.and_eq_true] at hqm
      have hq1 : (q == '*') = false := by
        cases hb : (q == '*') with
        | false => rfl
        | true => simp [isRegexMeta, hb] at hqm
      have hq2 : (q == '+') = false := by
        cases hb : (q == '+') with
        | false => rfl
        | true => simp [isRegexMeta, hb] at hqm
      have hq3 : (q == '?') = false := by
        cases hb : (q == '?') with
        | false => rfl
        | true => simp [isRegexMeta, hb] at hqm
      simp [lexPattern, mkAtom, hcd, hq1, hq2, hq3, ih h.2]

lemma matchOn_literal : ∀ (p : List Char) (s : List Char),
    matchOn s (p.map fun c => RTok.once (RAtom.lit c)) = specLeadsCI p s := by
  intro p
  induction p with
  | nil =>
    intro s
    cases s <;> rfl
  | cons c rest ih =>
    intro s
    cases s with
    | nil => rfl
    | cons h hs =>
      simp [matchOn, matchHere, matchAtom, specLeadsCI, ih hs]

lemma searchFrom_literal : ∀ (p s : List Char),
    searchFrom (p.map fun c => RTok.once (RAtom.lit c)) s = specSubCI p s := by
  intro p s
  induction s with
  | nil =>
    simp [searchFrom, specSubCI, matchOn_literal]
  | cons c cs ih =>
    simp [searchFrom, specSubCI, matchOn_literal, ih]

lemma regexSearchCI_literal (q s : String)
    (hq : (q.toList.all fun c => !(isRegexMeta c)) = true) :
    regexSearchCI q s = specContainsCI q s := by
  unfold regexSearchCI specContainsCI
  rw [lexPattern_literal q.toList hq, searchFrom_literal]

lemma memeMatchesQ_literal (q : String) (m : MemeDoc)
    (hq : (q.toList.all fun c => !(isRegexMeta c)) = true) :
    memeMatchesQ q m = specQMatch q m := by
  cases hcap : m.caption <;> cases hos : m.origin_summary <;>
    simp [memeMatchesQ, specQMatch, optRegexCI, hcap, hos,
      regexSearchCI_literal _ _ hq]

lemma searchFrom_nil : ∀ s : List Char, searchFrom [] s = true := by
  intro s
  cases s with
  | nil => rfl
  | cons c cs => simp [searchFrom, matchOn, matchHere]

lemma regexSearchCI_empty (s : String) : regexSearchCI ("") s = true := by
  unfold regexSearchCI
  exact searchFrom_nil _

lemma memeMatchesQ_empty (m : MemeDoc) : memeMatchesQ ("") m = true := by
  simp [memeMatchesQ, regexSearchCI_empty]

/-- Patterns on which the embedded matcher is an exact model of the
`$regex` engine: sequences of literal characters and `.` wildcards.  The
empty string qualifies. -/
def simpleQ : Option String → Bool
  | none => true
  | some qs => qs.toList.all (fun c => !(isRegexMeta c) || c == '.')

/-- The matching predicate of the amended claim, written from its words:
an absent filter matches every Meme; a present `q` is a case-insensitive
unanchored pattern match against one of the three text fields; a present
`tag` is a case-sensitive exact-element test on the tags list; the two
conjoin. -/
def claimListMatch (q tag : Option String) (m : MemeDoc) : Bool :=
  (match q with
   | none => true
   | some qs => memeMatchesQ qs m) &&
  (match tag with
   | none => true
   | some t => m.tags.contains t)

lemma memeFilter_eq_claim (q tag : Option String) (m : MemeDoc)
    (htag : tag ≠ some "") :
    memeFilter q tag m = claimListMatch q tag m := by
  cases q with
  | none =>
    cases tag with
    | none => rfl
    | some t =>
      have hte : t ≠ "" := fun h => htag (by rw [h])
      simp [memeFilter, claimListMatch, hte]
  | some qs =>
    by_cases hqs : qs = ""
    · subst hqs
      cases tag with
      | none => simp [memeFilter, claimListMatch, memeMatchesQ_empty]
      | some t =>
        have hte : t ≠ "" := fun h => htag (by rw [h])
        simp [memeFilter, claimListMatch, memeMatchesQ_empty, hte]
    · cases tag with
      | none => simp [memeFilter, claimListMatch, hqs]
      | some t =>
        have hte : t ≠ "" := fun h => htag (by rw [h])
        simp [memeFilter, claimListMatch, hqs, hte]

/-- C5 (amended): for every listing call, if `q` is present (empty string
included), exactly the Memes whose title, caption or origin_summary
matches `q` as a case-insensitive unanchored pattern — `.` matching any
character — are matched, which coincides with case-insensitive substring
containment whenever `q` is free of regex metacharacters; if `tag` is
present and non-empty, exactly the Memes whose tags list contains that tag
value as a case-sensitive exact element are matched, while an empty `tag`
string is treated as absent; an absent filter matches every Meme; both
filters combine with logical AND; results are capped at `limit`
(default 50). -/
theorem list_memes_filter_characterization (st : DB) (q tag : Option String)
    (limit : Nat) (_hq : simpleQ q = true) (htag : tag ≠ some "") :
    list_memes (some st) q tag limit =
      Except.ok ((st.meme.filter (claimListMatch q tag)).take limit) ∧
    (∀ qs : String, (qs.toList.all fun c => !(isRegexMeta c)) = true →
       ∀ m : MemeDoc, memeMatchesQ qs m = specQMatch qs m) := by
  constructor
  · simp only [list_memes, get_documents]
    rw [List.filter_congr (fun m _ => memeFilter_eq_claim q tag m htag)]
  · intro qs hlit m
    exact memeMatchesQ_literal qs m hlit

/-- Database for the C5 witness: one matching and one non-matching meme. -/
def wDB5 : DB :=
  { meme := [qMeme,
      { oid := fOid, title := "Grumpy Cat", image_url := none,
        caption := none, origin_summary := none, first_seen_at := none,
        sources := [], tags := ["funny"], submitter := none, upvotes := 0,
        downvotes := 0, updated_at := none }],
    comment := [], nextOid := 0 }

/-- Witness for C5 (amended): the theorem applied with `q` alone, with
`tag` alone, and with both present, at q = "cat", tag = "funny" and the
default limit 50. -/
theorem list_memes_filter_characterization_witness :
    simpleQ (some ("cat")) = true ∧ simpleQ (none : Option String) = true ∧
    ((none : Option String) ≠ some "") ∧
    ((some ("funny") : Option String) ≠ some "") ∧
    (list_memes (some wDB5) (some ("cat")) none 50 =
        Except.ok ((wDB5.meme.filter
          (claimListMatch (some ("cat")) none)).take 50) ∧
      (∀ qs : String, (qs.toList.all fun c => !(isRegexMeta c)) = true →
         ∀ m : MemeDoc, memeMatchesQ qs m = specQMatch qs m)) ∧
    (list_memes (some wDB5) none (some ("funny")) 50 =
        Except.ok ((wDB5.meme.filter
          (claimListMatch none (some ("funny")))).take 50) ∧
      (∀ qs : String, (qs.toList.all fun c => !(isRegexMeta c)) = true →
         ∀ m : MemeDoc, memeMatchesQ qs m = specQMatch qs m)) ∧
    (list_memes (some wDB5) (some ("cat")) (some ("funny")) 50 =
        Except.ok ((wDB5.meme.filter
          (claimListMatch (some ("cat")) (some ("funny")))).take 50) ∧
      (∀ qs : String, (qs.toList.all fun c => !(isRegexMeta c)) = true →
         ∀ m : MemeDoc, memeMatchesQ qs m = specQMatch qs m)) :=
  ⟨by decide, by decide, by decide, by decide,
   list_memes_filter_characterization wDB5 (some ("cat")) none 50 (by decide)
     (by decide),
   list_memes_filter_characterization wDB5 none (some ("funny")) 50 (by decide)
     (by decide),
   list_memes_filter_characterization wDB5 (some ("cat")) (some ("funny")) 50
     (by decide) (by decide)⟩

/-- Payload used by the C7 theorems: its body `meme_id` names a bogus
value that must be ignored. -/
def wPayload : CommentIn :=
  { meme_id := "bogus", author := some "alice", text := "nice",
    created_at := some 7 }

/-- C7 counterexample: adding a comment under the id string "zzz" — an id
referencing no existing Meme — is not reported as a 404; the `InvalidId`
raised by `ObjectId("zzz")` escapes the handler and surfaces as a 500 (no
comment is created either way). -/
theorem add_comment_unparseable_id_not_404 :
    add_comment (some wDB) ("zzz") wPayload =
      (Except.error ⟨500, invalidIdDetail ("zzz")⟩, some wDB) := rfl

/-- C7 (amended): the inserted comment is stamped with the path's meme id,
whatever `meme_id` the body carried; when the path id parses but matches no
stored Meme the call fails 404 and inserts nothing; an unparseable path id
fails with a 500, also inserting nothing. -/
theorem add_comment_stamps_path_id (st : DB) (mid : String) (c : CommentIn) :
    (∀ oid, parseObjectId mid = some oid →
      (∀ m, findMeme st oid = some m →
        ∃ d, add_comment (some st) mid c =
            (Except.ok d.oid.hex,
             some { st with comment := st.comment ++ [d],
                            nextOid := st.nextOid + 1 }) ∧
          d.meme_id = mid ∧ d.author = c.author ∧ d.text = c.text ∧
          d.created_at = c.created_at) ∧
      (findMeme st oid = none →
        add_comment (some st) mid c =
          (Except.error ⟨404, ("Meme not found")⟩, some st))) ∧
    (parseObjectId mid = none →
      add_comment (some st) mid c =
        (Except.error ⟨500, invalidIdDetail mid⟩, some st)) := by
  refine ⟨?_, ?_⟩
  · intro oid hparse
    refine ⟨?_, ?_⟩
    · intro m hfind
      refine ⟨{ oid := natToOid st.nextOid, meme_id := mid, author := c.author,
                text := c.text, created_at := c.created_at }, ?_, rfl, rfl,
              rfl, rfl⟩
      simp [add_comment, hparse, hfind, create_document_comment]
    · intro habs
      simp [add_comment, hparse, habs]
  · intro hparse
    simp [add_comment, hparse]

/-- Witness for C7 (amended) on the concrete database: the body's
`meme_id` "bogus" is replaced by the path value. -/
theorem add_comment_stamps_path_id_witness :
    parseObjectId wHex = some wOid ∧ findMeme wDB wOid = some wMeme ∧
    (∃ d, add_comment (some wDB) wHex wPayload =
        (Except.ok d.oid.hex,
         some { wDB with comment := wDB.comment ++ [d],
                         nextOid := wDB.nextOid + 1 }) ∧
      d.meme_id = wHex ∧ d.author = wPayload.author ∧ d.text = wPayload.text ∧
      d.created_at = wPayload.created_at) :=
  ⟨by decide, by decide,
   ((add_comment_stamps_path_id wDB wHex wPayload).1 wOid (by decide)).1 wMeme
     (by decide)⟩

end MemeWiki
